import Mathlib

/-!
Shallow embedding of the gpsd-threaded fix accumulator
(`src/gpsdthreaded/gpsresponse.py`).

Report payloads are modelled as bags of optional fields (a Python dict may
lack any key); numeric protocol fields are modelled as rationals.  Python
methods that mutate `self` and may raise become functions returning the
updated state paired with an optional exception: a raised exception leaves
the mutations performed before the raise in place, exactly as in Python.
-/

namespace GpsdThreaded

/-- Exceptions the embedded code can raise.  `noFix` models `NoFixError`
(the spec's `InsufficientFixError`), `inactive` models the `UserWarning`
raised by `parse_poll` (the spec's `InactiveSourceError`), `keyError` and
`indexError` model Python's `KeyError` / `IndexError` on dict/list access,
and `attributeError` models Python's `AttributeError`. -/
inductive Err where
  | noFix
  | inactive
  | keyError
  | indexError
  | attributeError
deriving DecidableEq

/-- One entry of a SKY report's `satellites` list: a dict that may or may
not carry the `used` key. -/
structure SatEntry where
  used : Option Bool := none
deriving DecidableEq

/-- The error-margin dict `self.error`.  It starts out as the empty dict
`{}`, so every key is optional; a key is `none` exactly when it is absent
from the Python dict. -/
structure ErrorDict where
  c : Option ℚ := none
  s : Option ℚ := none
  t : Option ℚ := none
  v : Option ℚ := none
  x : Option ℚ := none
  y : Option ℚ := none
deriving DecidableEq

/-- The data fields a decoded gpsd report object may carry (each key
optional, as in a Python dict). -/
structure Dict where
  mode : Option ℤ := none
  lon : Option ℚ := none
  lat : Option ℚ := none
  track : Option ℚ := none
  speed : Option ℚ := none
  time : Option String := none
  eps : Option ℚ := none
  ept : Option ℚ := none
  epx : Option ℚ := none
  epy : Option ℚ := none
  alt : Option ℚ := none
  climb : Option ℚ := none
  epc : Option ℚ := none
  epv : Option ℚ := none
  satellites : Option (List SatEntry) := none
  heading : Option ℚ := none
  pitch : Option ℚ := none
  roll : Option ℚ := none
deriving DecidableEq

/-- A top-level decoded packet: its `class` string, its data fields, and
the POLL-only members (`active` flag plus the `tpv` and `sky` sub-report
lists, kept outside `Dict` only to avoid a recursive structure). -/
structure Packet where
  cls : String
  fields : Dict := {}
  active : Option Bool := none
  tpv : Option (List Dict) := none
  sky : Option (List Dict) := none
deriving DecidableEq

/-- The mutable state of `GpsResponse`, with the initial values of
`__init__` as defaults. -/
structure GpsResponse where
  mode : ℤ := 0
  sats : ℕ := 0
  sats_valid : ℕ := 0
  lon : ℚ := 0
  lat : ℚ := 0
  alt : ℚ := 0
  track : ℚ := 0
  hspeed : ℚ := 0
  climb : ℚ := 0
  time : String := ""
  error : ErrorDict := {}
  heading : ℚ := 0
  pitch : ℚ := 0
  roll : ℚ := 0
deriving DecidableEq

/-- The state built by `GpsResponse.__init__`. -/
def initState : GpsResponse := {}

/-- `GpsResponse.parse_tpv`.  Reading `last_tpv['mode']` raises `KeyError`
before any mutation when the key is absent; otherwise `self.mode` is set
unconditionally, the `mode >= 2` block overwrites the position/velocity
fields and replaces `self.error` by a fresh dict (with keys `c` and `v`
set to 0), and the `mode >= 3` block additionally overwrites `alt`,
`climb` and the `c`/`v` margins. -/
def parse_tpv (g : GpsResponse) (d : Dict) : GpsResponse × Option Err :=
  match d.mode with
  | none => (g, some .keyError)
  | some m =>
    let g1 := { g with mode := m }
    let g2 :=
      if 2 ≤ m then
        { g1 with
          lon := d.lon.getD 0
          lat := d.lat.getD 0
          track := d.track.getD 0
          hspeed := d.speed.getD 0
          time := d.time.getD ""
          error :=
            { c := some 0
              s := some (d.eps.getD 0)
              t := some (d.ept.getD 0)
              v := some 0
              x := some (d.epx.getD 0)
              y := some (d.epy.getD 0) } }
      else g1
    let g3 :=
      if 3 ≤ m then
        { g2 with
          alt := d.alt.getD 0
          climb := d.climb.getD 0
          error := { g2.error with
            c := some (d.epc.getD 0)
            v := some (d.epv.getD 0) } }
      else g2
    (g3, none)

/-- Length of `[sat for sat in satellites if sat['used'] == True]`:
`none` when some entry examined before the answer is known lacks the
`used` key (Python raises `KeyError` there). -/
def countUsed : List SatEntry → Option ℕ
  | [] => some 0
  | e :: rest =>
    match e.used with
    | none => none
    | some b => (countUsed rest).map fun n => if b then n + 1 else n

/-- `GpsResponse.parse_sky`.  With a `satellites` list present, `sats` is
assigned the list length first; the list comprehension for `sats_valid`
then raises `KeyError` (leaving `sats_valid` unchanged) if an entry lacks
the `used` key.  Without a `satellites` list both counters are reset
to 0. -/
def parse_sky (g : GpsResponse) (d : Dict) : GpsResponse × Option Err :=
  match d.satellites with
  | some sats =>
    let g1 := { g with sats := sats.length }
    match countUsed sats with
    | none => (g1, some .keyError)
    | some n => ({ g1 with sats_valid := n }, none)
  | none => ({ g with sats := 0, sats_valid := 0 }, none)

/-- `GpsResponse.parse_att`: unconditional, each field defaulting to 0
when absent. -/
def parse_att (g : GpsResponse) (d : Dict) : GpsResponse :=
  { g with
    heading := d.heading.getD 0
    pitch := d.pitch.getD 0
    roll := d.roll.getD 0 }

/-- `GpsResponse.parse_poll`: raises `UserWarning` (`inactive`) when the
`active` flag is falsy, else applies `parse_tpv` to the last `tpv` entry
and then `parse_sky` to the last `sky` entry, with Python's evaluation
order of the dict/list accesses (`[-1]` on an empty list raises
`IndexError`). -/
def parse_poll (g : GpsResponse) (p : Packet) : GpsResponse × Option Err :=
  match p.active with
  | none => (g, some .keyError)
  | some a =>
    if a = false then (g, some .inactive)
    else
      match p.tpv with
      | none => (g, some .keyError)
      | some tl =>
        match tl.getLast? with
        | none => (g, some .indexError)
        | some dt =>
          match parse_tpv g dt with
          | (g1, some e) => (g1, some e)
          | (g1, none) =>
            match p.sky with
            | none => (g1, some .keyError)
            | some sl =>
              match sl.getLast? with
              | none => (g1, some .indexError)
              | some ds => parse_sky g1 ds

/-- `GpsResponse.parse_packet`: dispatch on the `class` string; any other
kind falls through the `if`/`elif` chain and is a no-op. -/
def parse_packet (g : GpsResponse) (p : Packet) : GpsResponse × Option Err :=
  if p.cls = "POLL" then parse_poll g p
  else if p.cls = "TPV" then parse_tpv g p.fields
  else if p.cls = "SKY" then parse_sky g p.fields
  else if p.cls = "ATT" then (parse_att g p.fields, none)
  else (g, none)

/-- `GpsResponse.position`. -/
def position (g : GpsResponse) : Except Err (ℚ × ℚ) :=
  if g.mode < 2 then .error .noFix else .ok (g.lat, g.lon)

/-- `GpsResponse.altitude`. -/
def altitude (g : GpsResponse) : Except Err ℚ :=
  if g.mode < 3 then .error .noFix else .ok g.alt

/-- `GpsResponse.movement`: the `{speed, track, climb}` dict as a
triple. -/
def movement (g : GpsResponse) : Except Err (ℚ × ℚ × ℚ) :=
  if g.mode < 3 then .error .noFix
  else .ok (g.hspeed, g.track, g.climb)

/-- `GpsResponse.speed_vertical`; `self.error['c']` raises `KeyError`
when the key is absent. -/
def speed_vertical (g : GpsResponse) : Except Err ℚ :=
  if g.mode < 2 then .error .noFix
  else
    match g.error.c with
    | none => .error .keyError
    | some c => if |g.climb| < c then .ok 0 else .ok g.climb

/-- `GpsResponse.speed`. -/
def speed (g : GpsResponse) : Except Err ℚ :=
  if g.mode < 2 then .error .noFix
  else
    match g.error.s with
    | none => .error .keyError
    | some s => if g.hspeed < s then .ok 0 else .ok g.hspeed

/-- `GpsResponse.position_precision`. -/
def position_precision (g : GpsResponse) : Except Err (ℚ × ℚ) :=
  if g.mode < 2 then .error .noFix
  else
    match g.error.x, g.error.y, g.error.v with
    | some x, some y, some v => .ok (max x y, v)
    | _, _, _ => .error .keyError

/-- A value `get_time` can produce: the timestamp string run through
`strptime`, or `datetime.now().isoformat()` when no timestamp was ever
stored. -/
inductive GpsTime where
  | parsed (s : String)
  | now
deriving DecidableEq

/-- `GpsResponse.get_time`.  Below 2D it raises `NoFixError`.  Otherwise
`rval` is the parsed stored timestamp, or the current wall-clock time when
none was stored.  When `local_time` is true the code then evaluates
`time.replace(tzinfo=...)` — but `time` is the imported module, which has
no `replace` attribute, so this raises `AttributeError` unconditionally. -/
def get_time (g : GpsResponse) (local_time : Bool) : Except Err GpsTime :=
  if g.mode < 2 then .error .noFix
  else
    let rval := if g.time = "" then GpsTime.now else GpsTime.parsed g.time
    if local_time then .error .attributeError
    else .ok rval

/-- Sequential application of one position/velocity dict and then one
satellite-visibility dict, propagating a raise from the first (the second
dict is then never touched) — the composition `parse_poll` performs on an
active bundle. -/
def applyTpvThenSky (g : GpsResponse) (dt ds : Dict) : GpsResponse × Option Err :=
  match parse_tpv g dt with
  | (g1, some e) => (g1, some e)
  | (g1, none) => parse_sky g1 ds

/-- All six error-margin keys are present in the dict. -/
def errKeysPresent (e : ErrorDict) : Prop :=
  e.c.isSome ∧ e.s.isSome ∧ e.t.isSome ∧ e.v.isSome ∧ e.x.isSome ∧ e.y.isSome

/-- States reachable from the freshly initialised `GpsResponse` by
applying any sequence of packets (keeping the mutated state also when a
packet application raises, as the Python object does). -/
inductive Reachable : GpsResponse → Prop where
  | init : Reachable initState
  | step (p : Packet) {g : GpsResponse} : Reachable g →
      Reachable (parse_packet g p).1

/-- Every satellite entry of the dict's satellite list carries the `used`
key. -/
def goodDict (d : Dict) : Prop :=
  ∀ e ∈ d.satellites.getD [], (e.used).isSome

/-- Every satellite entry of every satellite-visibility report inside the
packet (its own fields, and each SKY sub-report of a POLL bundle) carries
the `used` key. -/
def goodPacket (p : Packet) : Prop :=
  goodDict p.fields ∧ ∀ d ∈ p.sky.getD [], goodDict d

/-- States reachable from the freshly initialised `GpsResponse` by
applying packets whose satellite entries all carry the `used` flag. -/
inductive ReachableUsed : GpsResponse → Prop where
  | init : ReachableUsed initState
  | step (p : Packet) {g : GpsResponse} : goodPacket p → ReachableUsed g →
      ReachableUsed (parse_packet g p).1

/-! Concrete sample reports used by witnesses and counterexamples. -/

/-- A 3D TPV report with an altitude and error margins. -/
def tpvMode3 : Dict :=
  { mode := some 3, alt := some (247/2), climb := some (1/20),
    epc := some (1/2), epv := some (7/10) }

/-- A TPV report that regresses the fix quality to 1 (no fix). -/
def tpvMode1 : Dict := { mode := some 1 }

/-- A bare 2D TPV report. -/
def tpvMode2 : Dict := { mode := some 2 }

/-- A 3D TPV report whose climb is below its climb error margin. -/
def tpvClimbSmall : Dict :=
  { mode := some 3, climb := some (1/20), epc := some (1/10) }

/-- A 3D TPV report whose climb exceeds its climb error margin. -/
def tpvClimbBig : Dict :=
  { mode := some 3, climb := some (1/2), epc := some (1/10) }

/-- A satellite entry flagged used. -/
def satUsed : SatEntry := { used := some true }

/-- A satellite entry flagged not used. -/
def satUnused : SatEntry := { used := some false }

/-- A satellite entry lacking the `used` key. -/
def satNoFlag : SatEntry := { used := none }

/-- A SKY report with 8 satellites, 5 of them flagged used. -/
def sky85 : Dict :=
  { satellites := some
      [satUsed, satUsed, satUsed, satUsed, satUsed,
       satUnused, satUnused, satUnused] }

/-! ## Theorems -/

/-- The only exception `parse_tpv` can raise is the `KeyError` on a
missing `mode` field. -/
theorem parse_tpv_raise (g : GpsResponse) (d : Dict) :
    (parse_tpv g d).2 = none ∨ (parse_tpv g d).2 = some Err.keyError := by
  cases h : d.mode <;> simp [parse_tpv, h]

/-- The only exception `parse_sky` can raise is the `KeyError` on a
satellite entry missing the `used` key. -/
theorem parse_sky_raise (g : GpsResponse) (d : Dict) :
    (parse_sky g d).2 = none ∨ (parse_sky g d).2 = some Err.keyError := by
  cases h : d.satellites with
  | none => simp [parse_sky, h]
  | some sats => cases hc : countUsed sats <;> simp [parse_sky, h, hc]

/-- When every satellite entry carries the `used` key, the comprehension
count succeeds and equals the number of entries flagged used. -/
theorem countUsed_eq_filter (l : List SatEntry)
    (h : ∀ e ∈ l, (e.used).isSome) :
    countUsed l = some ((l.filter fun e => e.used == some true).length) := by
  induction l with
  | nil => rfl
  | cons e rest ih =>
    rcases hb : e.used with _ | b
    · exact absurd (h e (List.mem_cons_self e rest)) (by simp [hb])
    · have hr := ih fun x hx => h x (List.mem_cons_of_mem e hx)
      cases b <;> simp [countUsed, hb, hr, List.filter_cons]

/-- C1 counterexample: after a mode-3 report (altitude 247/2) followed by
a mode-1 report, the stored altitude field still holds 247/2 but
`altitude()` raises `NoFixError` instead of returning it — refuting the
claim that `altitude()` still returns the previously received value. -/
theorem C1_counterexample :
    ((parse_tpv (parse_tpv initState tpvMode3).1 tpvMode1).1.alt = 247/2) ∧
    (altitude (parse_tpv (parse_tpv initState tpvMode3).1 tpvMode1).1
       = Except.error Err.noFix) ∧
    ¬ (altitude (parse_tpv (parse_tpv initState tpvMode3).1 tpvMode1).1
       = Except.ok (247/2 : ℚ)) := by
  refine ⟨rfl, rfl, ?_⟩
  intro h
  simp [parse_tpv, altitude, tpvMode3, tpvMode1, initState] at h

/-- C1 (amended): applying a mode-3 report and then a mode-1 report
preserves the stored altitude field from the mode-3 report (staleness is
preserved, not cleared), but both `altitude()` and `movement()` now fail
with `NoFixError` because the current fix quality is 1. -/
theorem C1_stale_altitude (g : GpsResponse) (d3 d1 : Dict)
    (h3 : d3.mode = some 3) (h1 : d1.mode = some 1) :
    ((parse_tpv (parse_tpv g d3).1 d1).1.alt = d3.alt.getD 0) ∧
    (altitude (parse_tpv (parse_tpv g d3).1 d1).1 = Except.error Err.noFix) ∧
    (movement (parse_tpv (parse_tpv g d3).1 d1).1 = Except.error Err.noFix) := by
  norm_num [parse_tpv, altitude, movement, h3, h1]

/-- C1 witness: the amended theorem evaluated on concrete reports. -/
theorem C1_stale_altitude_witness :
    ((parse_tpv (parse_tpv initState tpvMode3).1 tpvMode1).1.alt
       = tpvMode3.alt.getD 0) ∧
    (altitude (parse_tpv (parse_tpv initState tpvMode3).1 tpvMode1).1
       = Except.error Err.noFix) ∧
    (movement (parse_tpv (parse_tpv initState tpvMode3).1 tpvMode1).1
       = Except.error Err.noFix) :=
  C1_stale_altitude initState tpvMode3 tpvMode1 rfl rfl

/-- C2 counterexample: a 3D report stores climb/vertical margins 1/2 and
7/10; a subsequent plain 2D report resets both to 0 — refuting the claim
that a 2D-quality report leaves the previously stored vertical and climb
margins unchanged. -/
theorem C2_counterexample :
    ((parse_tpv initState tpvMode3).1.error.c = some (1/2)) ∧
    ((parse_tpv initState tpvMode3).1.error.v = some (7/10)) ∧
    ((parse_tpv (parse_tpv initState tpvMode3).1 tpvMode2).1.error.c = some 0) ∧
    ((parse_tpv (parse_tpv initState tpvMode3).1 tpvMode2).1.error.v = some 0) := by
  refine ⟨rfl, rfl, rfl, rfl⟩

/-- C2 (amended): a position/velocity report changes the error margins
only when its mode is at least 2; a report with 2 ≤ mode < 3 replaces the
whole mapping — `lon`, `lat`, `speed`, `time` margins from the report's
fields and the `climb` and `vertical` margins reset to 0 (not preserved);
a 3D report additionally overwrites `climb` and `vertical` from the
report's `epc`/`epv` fields. -/
theorem C2_error_margin_updates (g : GpsResponse) (d : Dict) (m : ℤ)
    (hm : d.mode = some m) :
    (m < 2 → (parse_tpv g d).1.error = g.error) ∧
    (2 ≤ m → m < 3 → (parse_tpv g d).1.error =
      { c := some 0, s := some (d.eps.getD 0), t := some (d.ept.getD 0),
        v := some 0, x := some (d.epx.getD 0), y := some (d.epy.getD 0) }) ∧
    (3 ≤ m → (parse_tpv g d).1.error =
      { c := some (d.epc.getD 0), s := some (d.eps.getD 0),
        t := some (d.ept.getD 0), v := some (d.epv.getD 0),
        x := some (d.epx.getD 0), y := some (d.epy.getD 0) }) := by
  refine ⟨fun h => ?_, fun h2 h3 => ?_, fun h3 => ?_⟩ <;>
    simp only [parse_tpv, hm] <;> split_ifs <;> first | rfl | omega

/-- C2 witness: the amended theorem evaluated on a concrete 2D report. -/
theorem C2_error_margin_updates_witness :
    ¬ (3 : ℤ) < 2 ∧ (2 : ℤ) ≤ 3 ∧
    ((parse_tpv initState tpvMode3).1.error =
      { c := some (tpvMode3.epc.getD 0), s := some (tpvMode3.eps.getD 0),
        t := some (tpvMode3.ept.getD 0), v := some (tpvMode3.epv.getD 0),
        x := some (tpvMode3.epx.getD 0), y := some (tpvMode3.epy.getD 0) }) :=
  ⟨by norm_num, by norm_num,
    (C2_error_margin_updates initState tpvMode3 3 rfl).2.2 (by norm_num)⟩

/-- C3 (code bug): on a 2D fix with a stored timestamp, `get_time` with
`local_time = True` raises `AttributeError` — the code calls `.replace`
on the imported `time` module instead of on the parsed value — while with
`local_time = False` it returns the parsed timestamp as documented. -/
theorem C3_get_time_localtime_bug :
    (get_time (parse_tpv initState
        { mode := some 2, time := some "2020-01-01T00:00:00.000Z" }).1 true
       = Except.error Err.attributeError) ∧
    (get_time (parse_tpv initState
        { mode := some 2, time := some "2020-01-01T00:00:00.000Z" }).1 false
       = Except.ok (GpsTime.parsed "2020-01-01T00:00:00.000Z")) := by
  exact ⟨rfl, rfl⟩

/-- C4: merging a POLL bundle raises `InactiveSourceError` exactly when
the bundle's `active` flag is false, and then leaves the state equal to
its prior value; when `active` is true the merge equals applying the last
position/velocity entry and then the last satellite-visibility entry, in
that order. -/
theorem C4_poll_merge (g : GpsResponse) (p : Packet) (a : Bool)
    (ha : p.active = some a) :
    ((parse_poll g p).2 = some Err.inactive ↔ a = false) ∧
    (a = false → parse_poll g p = (g, some Err.inactive)) ∧
    (a = true → ∀ tl dt sl ds, p.tpv = some tl → tl.getLast? = some dt →
      p.sky = some sl → sl.getLast? = some ds →
      parse_poll g p = applyTpvThenSky g dt ds) := by
  cases a with
  | false =>
    refine ⟨?_, fun _ => ?_, fun h => by simp at h⟩ <;> simp [parse_poll, ha]
  | true =>
    have hne : (parse_poll g p).2 ≠ some Err.inactive := by
      simp only [parse_poll, ha]
      rw [if_neg (by simp)]
      cases ht : p.tpv with
      | none => simp
      | some tl =>
        cases hl : tl.getLast? with
        | none => simp [hl]
        | some dt =>
          simp only [hl]
          rcases hpt : parse_tpv g dt with ⟨g1, e1⟩
          cases e1 with
          | some e =>
            have hk := parse_tpv_raise g dt
            rw [hpt] at hk
            simp only [Prod.snd] at hk
            rcases hk with hk | hk <;> simp_all
          | none =>
            simp only [hpt]
            cases hs : p.sky with
            | none => simp
            | some sl =>
              cases hls : sl.getLast? with
              | none => simp [hls]
              | some ds =>
                simp only [hls]
                rcases parse_sky_raise g1 ds with h1 | h1 <;>
                  simp [h1]
    refine ⟨⟨fun h => absurd h hne, fun h => by simp at h⟩,
      fun h => by simp at h, fun _ tl dt sl ds ht hl hs hls => ?_⟩
    simp only [parse_poll, ha, ht, hl, hs, hls]
    rw [if_neg (by simp)]
    rfl

/-- C4 witness: an active bundle merges as TPV-then-SKY; an inactive one
raises and leaves the state untouched. -/
theorem C4_poll_merge_witness :
    (parse_poll initState
        { cls := "POLL", active := some true, tpv := some [tpvMode2],
          sky := some [sky85] } = applyTpvThenSky initState tpvMode2 sky85) ∧
    (parse_poll initState { cls := "POLL", active := some false }
        = (initState, some Err.inactive)) :=
  ⟨(C4_poll_merge initState
      { cls := "POLL", active := some true, tpv := some [tpvMode2],
        sky := some [sky85] } true rfl).2.2 rfl
      [tpvMode2] tpvMode2 [sky85] sky85 rfl rfl rfl rfl,
   (C4_poll_merge initState { cls := "POLL", active := some false }
      false rfl).2.1 rfl⟩

/-- C5: a 3D report with climb 1/20 and climb margin 1/10 makes
`verticalSpeed()` return 0 (clamped); with climb 1/2 and margin 1/10 it
returns 1/2; and in general at 2D-or-better quality `verticalSpeed()`
returns 0 when |climb| is below the stored climb margin and the climb
value otherwise. -/
theorem C5_vertical_speed_clamp :
    (∀ g d, d.mode = some 3 → d.climb = some (1/20) → d.epc = some (1/10) →
      speed_vertical (parse_tpv g d).1 = Except.ok 0) ∧
    (∀ g d, d.mode = some 3 → d.climb = some (1/2) → d.epc = some (1/10) →
      speed_vertical (parse_tpv g d).1 = Except.ok (1/2)) ∧
    (∀ g c, 2 ≤ g.mode → g.error.c = some c →
      speed_vertical g =
        if |g.climb| < c then Except.ok 0 else Except.ok g.climb) := by
  refine ⟨fun g d hm hc he => ?_, fun g d hm hc he => ?_,
    fun g c h2 hc => ?_⟩
  · norm_num [parse_tpv, speed_vertical, hm, hc, he, abs_of_nonneg]
  · norm_num [parse_tpv, speed_vertical, hm, hc, he, abs_of_nonneg]
  · simp only [speed_vertical, hc]
    rw [if_neg (by omega : ¬ g.mode < 2)]

/-- C5 witness: the clamping behavior evaluated on concrete reports. -/
theorem C5_vertical_speed_clamp_witness :
    (speed_vertical (parse_tpv initState tpvClimbSmall).1 = Except.ok 0) ∧
    (speed_vertical (parse_tpv initState tpvClimbBig).1 = Except.ok (1/2)) ∧
    (speed_vertical (parse_tpv initState tpvClimbBig).1 =
      if |(parse_tpv initState tpvClimbBig).1.climb| < (1/10 : ℚ)
      then Except.ok 0 else Except.ok (parse_tpv initState tpvClimbBig).1.climb) :=
  ⟨C5_vertical_speed_clamp.1 initState tpvClimbSmall rfl rfl rfl,
   C5_vertical_speed_clamp.2.1 initState tpvClimbBig rfl rfl rfl,
   C5_vertical_speed_clamp.2.2 (parse_tpv initState tpvClimbBig).1 (1/10)
     (by decide) rfl⟩

/-- C6 counterexample: after a SKY report with 7 used satellites, a SKY
report whose single satellite entry lacks the `used` key sets
`satellitesVisible` to 1 but raises `KeyError`, leaving `satellitesUsed`
at 7 instead of the claimed count-of-flagged-entries 0. -/
theorem C6_counterexample :
    ((parse_sky (parse_sky initState
        { satellites := some (List.replicate 7 satUsed) }).1
        { satellites := some [satNoFlag] }).1.sats = 1) ∧
    ((parse_sky (parse_sky initState
        { satellites := some (List.replicate 7 satUsed) }).1
        { satellites := some [satNoFlag] }).1.sats_valid = 7) ∧
    ¬ ((parse_sky (parse_sky initState
        { satellites := some (List.replicate 7 satUsed) }).1
        { satellites := some [satNoFlag] }).1.sats_valid = 0) ∧
    ((parse_sky (parse_sky initState
        { satellites := some (List.replicate 7 satUsed) }).1
        { satellites := some [satNoFlag] }).2 = some Err.keyError) := by
  refine ⟨rfl, rfl, by decide, rfl⟩

/-- C6 (amended): a SKY report whose satellite entries all carry the
`used` key sets `satellitesVisible` to the list length and
`satellitesUsed` to the count of entries flagged used, touching no other
field; one with no satellite list resets both counters to 0.  (An entry
lacking the key instead raises `KeyError` after `satellitesVisible` was
already updated, with `satellitesUsed` left unchanged.) -/
theorem C6_sky_counts (g : GpsResponse) (d : Dict) :
    (∀ sats, d.satellites = some sats → (∀ e ∈ sats, (e.used).isSome) →
      parse_sky g d = ({ g with
        sats := sats.length
        sats_valid := (sats.filter fun e => e.used == some true).length },
        none)) ∧
    (d.satellites = none →
      parse_sky g d = ({ g with sats := 0, sats_valid := 0 }, none)) := by
  constructor
  · intro sats hs hall
    simp [parse_sky, hs, countUsed_eq_filter sats hall]
  · intro hs
    simp [parse_sky, hs]

/-- C6 witness: 8 satellites with 5 flagged used yield counters 8 and 5,
and the other fields of the fresh state are untouched. -/
theorem C6_sky_counts_witness :
    parse_sky initState sky85
      = ({ initState with sats := 8, sats_valid := 5 }, none) := by
  rw [(C6_sky_counts initState sky85).1
    [satUsed, satUsed, satUsed, satUsed, satUsed,
     satUnused, satUnused, satUnused] rfl (by decide)]
  rfl

/-- C7: a packet whose kind is none of POLL, TPV, SKY, ATT — whatever its
other fields hold — is a silent no-op: no exception, state unchanged. -/
theorem C7_unknown_kind_noop (g : GpsResponse) (p : Packet)
    (h1 : p.cls ≠ "POLL") (h2 : p.cls ≠ "TPV")
    (h3 : p.cls ≠ "SKY") (h4 : p.cls ≠ "ATT") :
    parse_packet g p = (g, none) := by
  simp [parse_packet, h1, h2, h3, h4]

/-- C7 witness: a VERSION packet (with a malformed, field-free payload)
leaves the fresh state unchanged and raises nothing. -/
theorem C7_unknown_kind_noop_witness :
    parse_packet initState { cls := "VERSION" } = (initState, none) :=
  C7_unknown_kind_noop initState { cls := "VERSION" }
    (by decide) (by decide) (by decide) (by decide)

/-- `parse_tpv` installs the report's mode as the new fix quality. -/
theorem parse_tpv_mode (g : GpsResponse) (d : Dict) (m : ℤ)
    (hm : d.mode = some m) : (parse_tpv g d).1.mode = m := by
  simp only [parse_tpv, hm]
  split_ifs <;> rfl

/-- A report with mode at least 2 installs all six error-margin keys. -/
theorem parse_tpv_keys_of_mode2 (g : GpsResponse) (d : Dict) (m : ℤ)
    (hm : d.mode = some m) (h2 : 2 ≤ m) :
    errKeysPresent (parse_tpv g d).1.error := by
  simp only [parse_tpv, hm]
  split_ifs <;> simp [errKeysPresent]

/-- `parse_sky` changes neither the fix quality nor the error margins. -/
theorem parse_sky_frame (g : GpsResponse) (d : Dict) :
    (parse_sky g d).1.mode = g.mode ∧ (parse_sky g d).1.error = g.error := by
  cases h : d.satellites with
  | none => simp [parse_sky, h]
  | some sats => cases hc : countUsed sats <;> simp [parse_sky, h, hc]

/-- The error-key invariant: fix quality at least 2 implies all six
error-margin keys are present. -/
def keysInv (g : GpsResponse) : Prop :=
  2 ≤ g.mode → errKeysPresent g.error

/-- `parse_tpv` preserves the error-key invariant. -/
theorem keysInv_tpv (g : GpsResponse) (d : Dict) (h : keysInv g) :
    keysInv (parse_tpv g d).1 := by
  cases hm : d.mode with
  | none => simpa [keysInv, parse_tpv, hm] using h
  | some m =>
    intro h2
    rw [parse_tpv_mode g d m hm] at h2
    exact parse_tpv_keys_of_mode2 g d m hm h2

/-- `parse_sky` preserves the error-key invariant. -/
theorem keysInv_sky (g : GpsResponse) (d : Dict) (h : keysInv g) :
    keysInv (parse_sky g d).1 := by
  intro h2
  obtain ⟨hm, he⟩ := parse_sky_frame g d
  rw [he]
  exact h (hm ▸ h2)

/-- `parse_poll` preserves the error-key invariant. -/
theorem keysInv_poll (g : GpsResponse) (p : Packet) (h : keysInv g) :
    keysInv (parse_poll g p).1 := by
  simp only [parse_poll]
  cases hpa : p.active with
  | none => exact h
  | some a =>
    by_cases hab : a = false
    · simp only [if_pos hab]; exact h
    · simp only [if_neg hab]
      cases hpt : p.tpv with
      | none => exact h
      | some tl =>
        cases hl : tl.getLast? with
        | none => simp only [hl]; exact h
        | some dt =>
          simp only [hl]
          rcases hres : parse_tpv g dt with ⟨g1, e1⟩
          have hg1 : keysInv g1 := by
            have hk := keysInv_tpv g dt h
            rwa [hres] at hk
          cases e1 with
          | some e => exact hg1
          | none =>
            cases hs : p.sky with
            | none => exact hg1
            | some sl =>
              cases hls : sl.getLast? with
              | none => simp only [hls]; exact hg1
              | some ds => simp only [hls]; exact keysInv_sky g1 ds hg1

/-- `parse_packet` preserves the error-key invariant. -/
theorem keysInv_packet (g : GpsResponse) (p : Packet) (h : keysInv g) :
    keysInv (parse_packet g p).1 := by
  simp only [parse_packet]
  split_ifs
  · exact keysInv_poll g p h
  · exact keysInv_tpv g p.fields h
  · exact keysInv_sky g p.fields h
  · exact h
  · exact h

/-- Every reachable state satisfies the error-key invariant. -/
theorem keysInv_reachable (g : GpsResponse) (hg : Reachable g) :
    keysInv g := by
  induction hg with
  | init => intro h; exact absurd h (by decide)
  | step p hgprev ih => exact keysInv_packet _ p ih

/-- C9: in every reachable state, fix quality at least 2 implies the
error-margin mapping holds all six keys, so `verticalSpeed()`, `speed()`
and `positionPrecision()` succeed (no missing-key failure) whenever their
2D-quality precondition holds. -/
theorem C9_error_keys_invariant (g : GpsResponse) (hg : Reachable g)
    (h2 : 2 ≤ g.mode) :
    errKeysPresent g.error ∧
    (∃ v, speed_vertical g = Except.ok v) ∧
    (∃ v, speed g = Except.ok v) ∧
    (∃ v, position_precision g = Except.ok v) := by
  have hP : keysInv g := keysInv_reachable g hg
  obtain ⟨hc, hs, ht, hv, hx, hy⟩ := hP h2
  refine ⟨hP h2, ?_, ?_, ?_⟩
  · rcases Option.isSome_iff_exists.mp hc with ⟨c, hco⟩
    simp only [speed_vertical, hco]
    rw [if_neg (by omega : ¬ g.mode < 2)]
    by_cases hlt : |g.climb| < c
    · exact ⟨0, by rw [if_pos hlt]⟩
    · exact ⟨g.climb, by rw [if_neg hlt]⟩
  · rcases Option.isSome_iff_exists.mp hs with ⟨s, hso⟩
    simp only [speed, hso]
    rw [if_neg (by omega : ¬ g.mode < 2)]
    by_cases hlt : g.hspeed < s
    · exact ⟨0, by rw [if_pos hlt]⟩
    · exact ⟨g.hspeed, by rw [if_neg hlt]⟩
  · rcases Option.isSome_iff_exists.mp hx with ⟨x, hxo⟩
    rcases Option.isSome_iff_exists.mp hy with ⟨y, hyo⟩
    rcases Option.isSome_iff_exists.mp hv with ⟨v, hvo⟩
    simp only [position_precision, hxo, hyo, hvo]
    rw [if_neg (by omega : ¬ g.mode < 2)]
    exact ⟨(max x y, v), rfl⟩

/-- C9 witness: the invariant evaluated on the state reached by one 2D
TPV packet. -/
theorem C9_error_keys_invariant_witness :
    errKeysPresent
      (parse_packet initState { cls := "TPV", fields := tpvMode2 }).1.error ∧
    (∃ v, speed_vertical
      (parse_packet initState { cls := "TPV", fields := tpvMode2 }).1
        = Except.ok v) ∧
    (∃ v, speed
      (parse_packet initState { cls := "TPV", fields := tpvMode2 }).1
        = Except.ok v) ∧
    (∃ v, position_precision
      (parse_packet initState { cls := "TPV", fields := tpvMode2 }).1
        = Except.ok v) :=
  C9_error_keys_invariant _
    (Reachable.step { cls := "TPV", fields := tpvMode2 } Reachable.init)
    (by decide)

/-- `parse_tpv` never changes the satellite counters. -/
theorem parse_tpv_sats (g : GpsResponse) (d : Dict) :
    (parse_tpv g d).1.sats = g.sats ∧
    (parse_tpv g d).1.sats_valid = g.sats_valid := by
  cases hm : d.mode with
  | none => simp [parse_tpv, hm]
  | some m =>
    simp only [parse_tpv, hm]
    split_ifs <;> exact ⟨rfl, rfl⟩

/-- The counter invariant `satellitesUsed ≤ satellitesVisible`. -/
def satsInv (g : GpsResponse) : Prop :=
  g.sats_valid ≤ g.sats

/-- `parse_tpv` preserves the counter invariant. -/
theorem satsInv_tpv (g : GpsResponse) (d : Dict) (h : satsInv g) :
    satsInv (parse_tpv g d).1 := by
  obtain ⟨h1, h2⟩ := parse_tpv_sats g d
  unfold satsInv
  rw [h1, h2]
  exact h

/-- A SKY dict whose satellite entries all carry the `used` key leaves
the counters satisfying the invariant. -/
theorem satsInv_sky (g : GpsResponse) (d : Dict) (hd : goodDict d) :
    satsInv (parse_sky g d).1 := by
  cases hs : d.satellites with
  | none => simp [parse_sky, hs, satsInv]
  | some sats =>
    have hall : ∀ e ∈ sats, (e.used).isSome := by
      intro e he
      exact hd e (by simp [hs, he])
    simp only [parse_sky, hs, countUsed_eq_filter sats hall]
    exact List.length_filter_le _ _

/-- `parse_poll` on a packet with well-formed satellite entries preserves
the counter invariant. -/
theorem satsInv_poll (g : GpsResponse) (p : Packet) (hp : goodPacket p)
    (h : satsInv g) : satsInv (parse_poll g p).1 := by
  simp only [parse_poll]
  cases hpa : p.active with
  | none => exact h
  | some a =>
    by_cases hab : a = false
    · simp only [if_pos hab]; exact h
    · simp only [if_neg hab]
      cases hpt : p.tpv with
      | none => exact h
      | some tl =>
        cases hl : tl.getLast? with
        | none => simp only [hl]; exact h
        | some dt =>
          simp only [hl]
          rcases hres : parse_tpv g dt with ⟨g1, e1⟩
          have hg1 : satsInv g1 := by
            have hk := satsInv_tpv g dt h
            rwa [hres] at hk
          cases e1 with
          | some e => exact hg1
          | none =>
            cases hs : p.sky with
            | none => exact hg1
            | some sl =>
              cases hls : sl.getLast? with
              | none => simp only [hls]; exact hg1
              | some ds =>
                simp only [hls]
                refine satsInv_sky g1 ds (hp.2 ds ?_)
                rw [hs]
                exact List.mem_of_mem_getLast? hls

/-- `parse_packet` on a packet with well-formed satellite entries
preserves the counter invariant. -/
theorem satsInv_packet (g : GpsResponse) (p : Packet) (hp : goodPacket p)
    (h : satsInv g) : satsInv (parse_packet g p).1 := by
  simp only [parse_packet]
  split_ifs
  · exact satsInv_poll g p hp h
  · exact satsInv_tpv g p.fields h
  · exact satsInv_sky g p.fields hp.1
  · exact h
  · exact h

/-- C10: in every state reachable by reports whose satellite entries all
carry the `used` flag, `satellitesUsed ≤ satellitesVisible`. -/
theorem C10_sats_le (g : GpsResponse) (hg : ReachableUsed g) :
    g.sats_valid ≤ g.sats := by
  induction hg with
  | init => exact Nat.le_refl 0
  | step p hp hgprev ih => exact satsInv_packet _ p hp ih

/-- C10 witness: the invariant evaluated on the state reached by one SKY
packet with 8 satellites, 5 flagged used. -/
theorem C10_sats_le_witness :
    (parse_packet initState { cls := "SKY", fields := sky85 }).1.sats_valid ≤
    (parse_packet initState { cls := "SKY", fields := sky85 }).1.sats :=
  C10_sats_le _
    (ReachableUsed.step { cls := "SKY", fields := sky85 }
      (by refine ⟨?_, ?_⟩ <;> simp [goodDict, sky85, satUsed, satUnused])
      ReachableUsed.init)

end GpsdThreaded
